import Mathlib

/-!
Verification of the SECURECLICK service module (`src/services/geminiService.ts`).

The module has two exported operations:
* `analyzeThreatContent(text, imageData?)` — builds a prompt, optionally attaches an
  inline image part, calls the model service requesting JSON output, and parses the
  response text with `JSON.parse`, falling back to a fixed object when parsing throws.
* `getChatResponse(history, mode = 'lite')` — selects a model variant and config per
  mode, maps the chat history one-to-one into request contents, and maps the response
  into `{text, sources?}`.

The shallow embedding below translates each piece of that file into executable Lean
definitions.  JavaScript runtime values returned by `JSON.parse` are modelled by the
`Json` inductive; the TypeScript cast `as AnalysisResult` performs no runtime check,
so the analyzer's result type is `Json`.  The embedded `jsonParse` models `JSON.parse`
restricted to the JSON fragment relevant to this service: integer numbers (no
fraction/exponent) and the common string escapes (no \u escapes); every concrete
input used in the theorems below stays inside this fragment.
-/

set_option autoImplicit false

namespace SecureClick

/-- A JavaScript value produced by `JSON.parse` (numbers restricted to integers). -/
inductive Json where
  | null : Json
  | bool : Bool → Json
  | num : Int → Json
  | str : String → Json
  | arr : List Json → Json
  | obj : List (String × Json) → Json
  deriving Repr

/-- The opening-brace character of JSON object syntax. -/
def lbraceChar : Char := Char.ofNat 123

/-- The closing-brace character of JSON object syntax. -/
def rbraceChar : Char := Char.ofNat 125

/-- JSON whitespace. -/
def isJsonWs (c : Char) : Bool :=
  c = ' ' || c = '\t' || c = '\n' || c = '\r'

/-- Drop leading JSON whitespace. -/
def skipWs : List Char → List Char
  | [] => []
  | c :: cs => if isJsonWs c then skipWs cs else c :: cs

/-- Parse the body of a JSON string literal (the opening quote already consumed),
returning the decoded characters and the input remaining after the closing quote.
Supported escapes: quote, backslash, slash, n, t, r. -/
def parseStr : List Char → Option (List Char × List Char)
  | [] => none
  | '"' :: cs => some ([], cs)
  | '\\' :: e :: cs =>
    let dec : Option Char :=
      if e = '"' then some '"'
      else if e = '\\' then some '\\'
      else if e = '/' then some '/'
      else if e = 'n' then some '\n'
      else if e = 't' then some '\t'
      else if e = 'r' then some '\r'
      else none
    match dec with
    | none => none
    | some d =>
      match parseStr cs with
      | some (out, rest) => some (d :: out, rest)
      | none => none
  | c :: cs =>
    match parseStr cs with
    | some (out, rest) => some (c :: out, rest)
    | none => none

/-- Longest prefix of decimal digits, and the rest of the input. -/
def takeDigits : List Char → (List Char × List Char)
  | [] => ([], [])
  | c :: cs =>
    if c.isDigit then
      let p := takeDigits cs
      (c :: p.1, p.2)
    else ([], c :: cs)

/-- Decimal digits to a natural number. -/
def digitsToNat (ds : List Char) : Nat :=
  List.foldl (fun a c => a * 10 + (c.toNat - 48)) 0 ds

/-- Parse a JSON number (integer form: optional minus then digits). -/
def parseNum : List Char → Option (Json × List Char)
  | [] => none
  | c :: cs =>
    if c = '-' then
      match takeDigits cs with
      | ([], _) => none
      | (ds, rest) => some (Json.num (-(digitsToNat ds : Int)), rest)
    else if c.isDigit then
      let p := takeDigits (c :: cs)
      some (Json.num (digitsToNat p.1 : Int), p.2)
    else none

mutual

/-- Parse one JSON value, fuel-bounded; returns the value and remaining input. -/
def parseVal : Nat → List Char → Option (Json × List Char)
  | 0, _ => none
  | Nat.succ fuel, l =>
    match skipWs l with
    | [] => none
    | c :: cs =>
      if c = 'n' then
        match cs with
        | 'u' :: 'l' :: 'l' :: r => some (Json.null, r)
        | _ => none
      else if c = 't' then
        match cs with
        | 'r' :: 'u' :: 'e' :: r => some (Json.bool true, r)
        | _ => none
      else if c = 'f' then
        match cs with
        | 'a' :: 'l' :: 's' :: 'e' :: r => some (Json.bool false, r)
        | _ => none
      else if c = '"' then
        match parseStr cs with
        | some (out, rest) => some (Json.str (String.mk out), rest)
        | none => none
      else if c = '[' then
        match skipWs cs with
        | ']' :: r => some (Json.arr [], r)
        | cs2 =>
          match parseItems fuel cs2 with
          | some (xs, rest) => some (Json.arr xs, rest)
          | none => none
      else if c = lbraceChar then
        match skipWs cs with
        | [] => none
        | d :: r =>
          if d = rbraceChar then some (Json.obj [], r)
          else
            match parseMembers fuel (d :: r) with
            | some (ms, rest) => some (Json.obj ms, rest)
            | none => none
      else parseNum (c :: cs)

/-- Parse a comma-separated list of array items up to the closing bracket. -/
def parseItems : Nat → List Char → Option (List Json × List Char)
  | 0, _ => none
  | Nat.succ fuel, l =>
    match parseVal fuel l with
    | none => none
    | some (v, rest) =>
      match skipWs rest with
      | ',' :: r2 =>
        match parseItems fuel r2 with
        | some (xs, r3) => some (v :: xs, r3)
        | none => none
      | ']' :: r2 => some ([v], r2)
      | _ => none

/-- Parse a comma-separated list of object members up to the closing brace. -/
def parseMembers : Nat → List Char → Option (List (String × Json) × List Char)
  | 0, _ => none
  | Nat.succ fuel, l =>
    match skipWs l with
    | '"' :: cs =>
      match parseStr cs with
      | none => none
      | some (key, rest) =>
        match skipWs rest with
        | ':' :: r2 =>
          match parseVal fuel r2 with
          | none => none
          | some (v, r3) =>
            match skipWs r3 with
            | [] => none
            | c :: r4 =>
              if c = ',' then
                match parseMembers fuel r4 with
                | some (ms, r5) => some ((String.mk key, v) :: ms, r5)
                | none => none
              else if c = rbraceChar then some ([(String.mk key, v)], r4)
              else none
        | _ => none
    | _ => none

end

/-- Model of `JSON.parse(text)`: `some v` when it returns value `v`,
`none` when it throws (as caught by the analyzer's `try`/`catch`). -/
def jsonParse (s : String) : Option Json :=
  match parseVal (2 * s.length + 2) s.toList with
  | some (v, rest) => if skipWs rest = [] then some v else none
  | none => none

end SecureClick

namespace SecureClick

example : jsonParse "17" = some (Json.num 17) := rfl
example : jsonParse "" = none := rfl
example : jsonParse "\x7b\x7d" = some (Json.obj []) := rfl
example : jsonParse " \x7b\"a\": [1, -2, \"x\"]\x7d " =
    some (Json.obj [("a", Json.arr [Json.num 1, Json.num (-2), Json.str "x"])]) := rfl
example : jsonParse "not json" = none := rfl
example : jsonParse "1 2" = none := rfl

end SecureClick

namespace SecureClick

/-- One entry of the request's `contents.parts` array (lines 26–31): the prompt text
part, or the inline image part whose `data` is `none` when the JS expression
`imageData.split(',')[1]` is `undefined`, and whose second field is the `mimeType`. -/
inductive Part where
  | text : String → Part
  | inlineData : Option String → String → Part
  deriving Repr, DecidableEq

/-- JavaScript `String.prototype.split` with a one-character separator, over char
lists: `"".split(sep)` is `[""]`, and a separator at the head opens a new empty
segment. -/
def jsSplitChars (sep : Char) : List Char → List (List Char)
  | [] => [[]]
  | c :: cs =>
    if c = sep then [] :: jsSplitChars sep cs
    else
      match jsSplitChars sep cs with
      | r :: rs => (c :: r) :: rs
      | [] => [[c]]

/-- The JS expression `imageData.split(',')[1]` (line 29); `none` models `undefined`
(no second comma-separated segment). -/
def splitSecond (s : String) : Option String :=
  ((jsSplitChars ',' s.toList).get? 1).map String.mk

/-- The analyzer's prompt template literal (lines 12–24) with `text` interpolated
verbatim. -/
def analyzePrompt (text : String) : String :=
  "Act as a Senior Cyber-Forensics Lead. Analyze the following artifact for social engineering markers: \"" ++ text ++ "\".\n\n  AUDIT SCOPE:\n  1. ADVANCED EVASION: Check for character substitution, hidden subdomains, or redirection loops.\n  2. PSYCHOLOGICAL VECTORS: Identify triggers like Urgency, Fear, Authority, or Social Proof.\n  3. TECHNICAL RISK: Evaluate the likely payload (Credential harvesting, malware delivery, or data scraping).\n\n  OUTPUT PROTOCOL (JSON ONLY):\n  - status: \x27Safe\x27 | \x27Suspicious\x27 | \x27Dangerous\x27\n  - riskLevel: 0-100 (Integer)\n  - reasoning: High-level professional technical summary of the findings.\n  - suggestedActions: Tactical list of defensive protocols for the user.\n  - detectedIndicators: Technical terminology of artifacts found."

/-- Lines 26–31: the `parts` array of the outbound request.  `imageData = some s`
models the argument being supplied; the source guard `if (imageData)` tests JS
truthiness, so the empty string attaches no image part. -/
def buildParts (text : String) (imageData : Option String) : List Part :=
  let base := [Part.text (analyzePrompt text)]
  match imageData with
  | none => base
  | some s =>
    if s = "" then base
    else base ++ [Part.inlineData (splitSecond s) "image/jpeg"]

/-- The outbound analyzer request (lines 33–51): model name, content parts, and the
JSON-output config.  The declared `responseSchema` is embedded as the predicate
`matchesSchema` below. -/
structure AnalyzeRequest where
  model : String
  parts : List Part
  responseMimeType : String
  deriving Repr, DecidableEq

/-- The request built by `analyzeThreatContent` before the outbound call. -/
def analyzeRequest (text : String) (imageData : Option String) : AnalyzeRequest :=
  { model := "gemini-3-flash-preview"
    parts := buildParts text imageData
    responseMimeType := "application/json" }

/-- JS property read on a parsed JSON object; `none` models `undefined`.  (Duplicate
keys never occur in the inputs considered here.) -/
def getField (v : Json) (k : String) : Option Json :=
  match v with
  | Json.obj fs =>
    match fs.find? (fun p => p.1 == k) with
    | some p => some p.2
    | none => none
  | _ => none

/-- The value is a JSON string. -/
def isStr : Json → Bool
  | Json.str _ => true
  | _ => false

/-- The value is a JSON number. -/
def isNum : Json → Bool
  | Json.num _ => true
  | _ => false

/-- The value is a JSON array of strings. -/
def isStrArr : Json → Bool
  | Json.arr xs => xs.all isStr
  | _ => false

/-- The optional value is present and satisfies `p`. -/
def optHolds (p : Json → Bool) : Option Json → Bool
  | some v => p v
  | none => false

/-- The `responseSchema` declared in the analyzer's request config (lines 38–49): an
object with required `status` (string), `riskLevel` (number), `reasoning` (string),
`suggestedActions` (array of string) and `detectedIndicators` (array of string). -/
def matchesSchema (v : Json) : Bool :=
  optHolds isStr (getField v "status") &&
  optHolds isNum (getField v "riskLevel") &&
  optHolds isStr (getField v "reasoning") &&
  optHolds isStrArr (getField v "suggestedActions") &&
  optHolds isStrArr (getField v "detectedIndicators")

/-- The fixed fallback object returned when `JSON.parse` throws (lines 55–61). -/
def fallbackResult : Json :=
  Json.obj
    [ ("status", Json.str "Suspicious"),
      ("riskLevel", Json.num 50),
      ("reasoning", Json.str "Forensic parser anomaly. Manual verification required."),
      ("suggestedActions", Json.arr [Json.str "Do not click links", Json.str "Verify source identity"]),
      ("detectedIndicators", Json.arr [Json.str "Parser Error"]) ]

/-- Lines 52–62: `JSON.parse(response.text)` under `try`, with the fallback object on
`catch`.  The TypeScript cast `as AnalysisResult` performs no runtime validation, so
a successfully parsed value is returned unchanged. -/
def analyzeParseResponse (responseText : String) : Json :=
  match jsonParse responseText with
  | some v => v
  | none => fallbackResult

/-- A transport/network fault raised by the outbound `generateContent` call itself. -/
structure TransportError where
  message : String
  deriving Repr, DecidableEq

/-- The whole of `analyzeThreatContent` (lines 9–63): build the request, perform the
outbound call (`call` models `ai.models.generateContent`, returning the response
text or a transport fault), then map the response text.  The `try` block wraps only
`JSON.parse`, not the `await`, so a fault from the call propagates unchanged. -/
def analyzeThreatContent (text : String) (imageData : Option String)
    (call : AnalyzeRequest → Except TransportError String) : Except TransportError Json :=
  match call (analyzeRequest text imageData) with
  | Except.error e => Except.error e
  | Except.ok t => Except.ok (analyzeParseResponse t)

/-- The `riskLevel` property of a result, when it is a number. -/
def riskLevelOf (v : Json) : Option Int :=
  match getField v "riskLevel" with
  | some (Json.num n) => some n
  | _ => none

/-- The result carries an integer `riskLevel` lying in the closed interval [0, 100]. -/
def riskOk (v : Json) : Bool :=
  match riskLevelOf v with
  | some n => decide (0 ≤ n) && decide (n ≤ 100)
  | none => false

/-- Spec-side reading for claim C4: "the text after the first comma" of a string, on
char lists (`none` when no comma occurs). -/
def afterFirst (sep : Char) : List Char → Option (List Char)
  | [] => none
  | c :: cs => if c = sep then some cs else afterFirst sep cs

/-- Spec-side reading for claim C4: the text after the first comma of `imageData`. -/
def textAfterFirstComma (s : String) : Option String :=
  (afterFirst ',' s.toList).map String.mk

end SecureClick

namespace SecureClick

/-- Modelled from the spec (§3 Data Model): the role of a `ChatMessage`
(enum of `user` and `model`); the `../types` module declaring it is not under
`src/`. -/
inductive Role where
  | user : Role
  | model : Role
  deriving Repr, DecidableEq

/-- Modelled from the spec (§3 Data Model): `ChatMessage` is `{role, text}`; the
`../types` module declaring it is not under `src/`. -/
structure ChatMessage where
  role : Role
  text : String
  deriving Repr, DecidableEq

/-- The `ChatMode` union type (line 7). -/
inductive ChatMode where
  | lite : ChatMode
  | search : ChatMode
  | thinking : ChatMode
  deriving Repr, DecidableEq

/-- The default value of the `mode` parameter of `getChatResponse` (line 66). -/
def defaultChatMode : ChatMode := ChatMode.lite

/-- The fixed system instruction string (lines 69–84), identical in every mode. -/
def chatSystemInstruction : String :=
  "You are the SAFECLICK Chief Intelligence Mentor. \n\nPERSONA: You are a world-class Cyber-Intelligence Analyst and Security Mentor. Your tone is authoritative, analytical, and highly precise, yet intellectually supportive. You do not give generic advice; you provide forensic-grade insights.\n\nREASONING FRAMEWORK:\nFor every query, structure your response as follows:\n1. **TACTICAL SUMMARY**: A Bottom-Line-Up-Front (BLUF) executive assessment.\n2. **THREAT MECHANICS**: Deep reasoning into the \"Why\" and \"How\". Explain psychological triggers (Urgency, Authority) and technical vectors (Homograph attacks, MFA fatigue).\n3. **TACTICAL HARDENING**: Concrete, step-by-step defensive actions for the user.\n4. **LEGAL INTEL**: Relevant Indian laws (IT Act, IPC, DPDP) and 1930 reporting steps where applicable.\n\nGUIDELINES:\n- Use professional terminology (TTPs, Vectors, Payloads, Zero-Trust).\n- Use analogies to explain complex topics.\n- Maintain a professional, supportive, and trustworthy tone.\n- If in \x27thinking\x27 (Analyst) mode, simulate an attacker\x27s thought process to provide better defense."

/-- The web-grounding tool attached in search mode (line 89): `{googleSearch: {}}`. -/
inductive Tool where
  | googleSearch : Tool
  deriving Repr, DecidableEq

/-- The `thinkingConfig` attached in thinking mode (line 92). -/
structure ThinkingConfig where
  thinkingBudget : Nat
  deriving Repr, DecidableEq

/-- The request config assembled at lines 86–93: the system instruction is always
present; `tools` and `thinkingConfig` exist only when a mode branch adds them. -/
structure ChatConfig where
  systemInstruction : String
  tools : Option (List Tool)
  thinkingConfig : Option ThinkingConfig
  deriving Repr, DecidableEq

/-- One text part of a contents entry (line 98): `{text: m.text}`. -/
structure ContentPart where
  text : String
  deriving Repr, DecidableEq

/-- One entry of the outbound `contents` array (line 98). -/
structure GenContent where
  role : Role
  parts : List ContentPart
  deriving Repr, DecidableEq

/-- The outbound chat request (lines 96–100). -/
structure ChatRequest where
  model : String
  contents : List GenContent
  config : ChatConfig
  deriving Repr, DecidableEq

/-- Lines 66–100 of `getChatResponse`: the source initialises `model` to the
standard variant and the config to just the system instruction, then the
`if`/`else if` chain on `mode` overrides them, and `history` is mapped one entry to
one content. -/
def getChatRequest (history : List ChatMessage) (mode : ChatMode) : ChatRequest :=
  let model0 := "gemini-3-flash-preview"
  let config0 : ChatConfig :=
    { systemInstruction := chatSystemInstruction, tools := none, thinkingConfig := none }
  let mc : String × ChatConfig :=
    match mode with
    | ChatMode.search => (model0, { config0 with tools := some [Tool.googleSearch] })
    | ChatMode.thinking =>
      ("gemini-3-pro-preview", { config0 with thinkingConfig := some { thinkingBudget := 32768 } })
    | ChatMode.lite => ("gemini-flash-lite-latest", config0)
  { model := mc.1
    contents := history.map (fun m => { role := m.role, parts := [{ text := m.text }] })
    config := mc.2 }

/-- A `chunk.web` citation entry, mapped to `{title, uri}`. -/
structure WebRef where
  title : String
  uri : String
  deriving Repr, DecidableEq

/-- A grounding chunk; `web` is `none` when the chunk does not reference a web
source. -/
structure GroundingChunk where
  web : Option WebRef
  deriving Repr, DecidableEq

/-- The `groundingMetadata` object of a candidate; its `groundingChunks` array may
be absent. -/
structure GroundingMetadata where
  groundingChunks : Option (List GroundingChunk)
  deriving Repr, DecidableEq

/-- One response candidate; its `groundingMetadata` may be absent. -/
structure Candidate where
  groundingMetadata : Option GroundingMetadata
  deriving Repr, DecidableEq

/-- The model-service response as read by `getChatResponse` (lines 102–112):
`candidates`, each step of the metadata chain, and `text` may each be `undefined`
(`none`). -/
structure ChatResponse where
  candidates : Option (List Candidate)
  text : Option String
  deriving Repr, DecidableEq

/-- The JS truthiness filter `chunk => chunk.web` (line 103). -/
def hasWeb (ch : GroundingChunk) : Bool := ch.web.isSome

/-- The `.map` body at lines 104–107: read `chunk.web.title` and `chunk.web.uri`.
After the `filter` the `web` field is always present, so the `none` branch is
unreachable there (the JS would fault on it). -/
def chunkToSource (ch : GroundingChunk) : WebRef :=
  match ch.web with
  | some w => { title := w.title, uri := w.uri }
  | none => { title := "", uri := "" }

/-- Lines 102–107: the optional-chained extraction
`response.candidates?.[0]?.groundingMetadata?.groundingChunks?.filter(...)?.map(...)`;
`none` models the chain short-circuiting to `undefined`, so that the `sources` key
of the reply carries `undefined`. -/
def extractSources (r : ChatResponse) : Option (List WebRef) :=
  match r.candidates with
  | none => none
  | some cands =>
    match cands.get? 0 with
    | none => none
    | some c =>
      match c.groundingMetadata with
      | none => none
      | some gm =>
        match gm.groundingChunks with
        | none => none
        | some chunks => some ((chunks.filter hasWeb).map chunkToSource)

/-- The reply object `{text, sources}` (lines 109–112); `sources = none` models the
key holding `undefined` (the field being absent from the serialised reply). -/
structure ChatReply where
  text : String
  sources : Option (List WebRef)
  deriving Repr, DecidableEq

/-- Lines 109–112: `text` is `response.text || "Communication link lost."` (the
placeholder replaces an absent or empty — falsy — text) and `sources` is the
extraction above. -/
def getChatReply (r : ChatResponse) : ChatReply :=
  { text :=
      match r.text with
      | some s => if s = "" then "Communication link lost." else s
      | none => "Communication link lost."
    sources := extractSources r }

/-- The whole of `getChatResponse` (lines 66–113): build the request, perform the
outbound call (`call` models `ai.models.generateContent`), and map the response; a
transport fault propagates unchanged (spec §4.2: no local recovery). -/
def getChatResponse (history : List ChatMessage) (mode : ChatMode)
    (call : ChatRequest → Except TransportError ChatResponse) :
    Except TransportError ChatReply :=
  match call (getChatRequest history mode) with
  | Except.error e => Except.error e
  | Except.ok r => Except.ok (getChatReply r)

end SecureClick

namespace SecureClick

example : splitSecond "data:image/jpeg;base64,XXXX" = some "XXXX" := rfl
example : splitSecond "a,b,c" = some "b" := rfl
example : textAfterFirstComma "a,b,c" = some "b,c" := rfl
example : splitSecond "abc" = none := rfl
example : analyzeParseResponse "::" = fallbackResult := rfl
example : matchesSchema fallbackResult = true := rfl
example : matchesSchema (Json.obj []) = false := rfl
example : riskOk fallbackResult = true := rfl

/-- `split` never yields an empty list of segments. -/
theorem jsSplitChars_ne_nil (sep : Char) (l : List Char) : jsSplitChars sep l ≠ [] := by
  induction l with
  | nil => simp [jsSplitChars]
  | cons c cs ih =>
    simp only [jsSplitChars]
    split
    · simp
    · split <;> simp

/-- Splitting a list without the separator yields the single segment `[l]`. -/
theorem jsSplitChars_of_not_mem (sep : Char) (l : List Char) (h : sep ∉ l) :
    jsSplitChars sep l = [l] := by
  induction l with
  | nil => rfl
  | cons c cs ih =>
    have hc : ¬ c = sep := fun e => h (e ▸ List.mem_cons_self c cs)
    have hcs : sep ∉ cs := fun m => h (List.mem_cons_of_mem _ m)
    simp [jsSplitChars, hc, ih hcs]

/-- With at most one separator occurrence, the second segment produced by `split` is
exactly the suffix after the first separator (`none` when there is none). -/
theorem jsSplitChars_get?_one (sep : Char) (l : List Char) (h : l.count sep ≤ 1) :
    (jsSplitChars sep l).get? 1 = afterFirst sep l := by
  induction l with
  | nil => rfl
  | cons c cs ih =>
    by_cases hc : c = sep
    · subst hc
      have h0 : cs.count c = 0 := by
        have hcc : (c :: cs).count c = cs.count c + 1 := List.count_cons_self c cs
        omega
      have hnm : c ∉ cs := List.count_eq_zero.mp h0
      simp [jsSplitChars, afterFirst, jsSplitChars_of_not_mem _ _ hnm]
    · have hcount : cs.count sep ≤ 1 := by
        have hcc : (c :: cs).count sep = cs.count sep := by
          simp [List.count_cons, hc]
        omega
      have hrec := ih hcount
      cases hsplit : jsSplitChars sep cs with
      | nil => exact absurd hsplit (jsSplitChars_ne_nil sep cs)
      | cons r rs =>
        rw [hsplit] at hrec
        simp only [jsSplitChars, hc, if_false, hsplit, afterFirst]
        simpa using hrec

/-- With at most one comma, `split(',')[1]` coincides with the text after the first
comma. -/
theorem splitSecond_eq_afterFirst (img : String) (h : img.toList.count ',' ≤ 1) :
    splitSecond img = textAfterFirstComma img := by
  unfold splitSecond textAfterFirstComma
  rw [jsSplitChars_get?_one ',' img.toList h]

/-- With no comma at all, `split(',')[1]` is `undefined`. -/
theorem splitSecond_eq_none (img : String) (h : ',' ∉ img.toList) :
    splitSecond img = none := by
  unfold splitSecond
  rw [jsSplitChars_of_not_mem ',' img.toList h]
  rfl

end SecureClick

namespace SecureClick

/-- C4 as stated fails on the code: for `imageData = "a,b,c"` the attached inline
payload is `"b"` (one character), the segment between the first and second commas
produced by `split(',')[1]`, while the text after the first comma is `"b,c"` (three
characters) — so the payload is not the text after the first comma. -/
theorem c4_counterexample :
    buildParts "t" (some "a,b,c") =
      [Part.text (analyzePrompt "t"), Part.inlineData (some "b") "image/jpeg"] ∧
    textAfterFirstComma "a,b,c" = some "b,c" ∧
    (splitSecond "a,b,c").map String.length = some 1 ∧
    (textAfterFirstComma "a,b,c").map String.length = some 3 :=
  ⟨rfl, rfl, rfl, rfl⟩

/-- C4 (amended): when `imageData` is supplied, non-empty, and contains at most one
comma, the attached inline payload is exactly the text after the first comma
(`undefined` when there is no comma), tagged `image/jpeg`; when `imageData` is not
supplied, the request parts are the prompt text alone. -/
theorem c4_image_payload (text img : String)
    (hne : img ≠ "") (hcount : img.toList.count ',' ≤ 1) :
    buildParts text (some img) =
      [Part.text (analyzePrompt text),
        Part.inlineData (textAfterFirstComma img) "image/jpeg"] ∧
    buildParts text none = [Part.text (analyzePrompt text)] := by
  refine ⟨?_, rfl⟩
  rw [← splitSecond_eq_afterFirst img hcount]
  simp [buildParts, hne]

/-- Witness for `c4_image_payload` at the spec's own example input. -/
theorem c4_image_payload_witness :
    buildParts "t" (some "data:image/jpeg;base64,XXXX") =
      [Part.text (analyzePrompt "t"), Part.inlineData (some "XXXX") "image/jpeg"] ∧
    buildParts "t" none = [Part.text (analyzePrompt "t")] := by
  have h := c4_image_payload "t" "data:image/jpeg;base64,XXXX" (by decide) (by decide)
  exact ⟨h.1, h.2⟩

/-- C5: whenever the response text is malformed JSON (`JSON.parse` throws), the
analyzer returns a result exactly equal to the fixed fallback object. -/
theorem c5_malformed_json_fallback (s : String) (h : jsonParse s = none) :
    analyzeParseResponse s =
      Json.obj
        [ ("status", Json.str "Suspicious"),
          ("riskLevel", Json.num 50),
          ("reasoning", Json.str "Forensic parser anomaly. Manual verification required."),
          ("suggestedActions",
            Json.arr [Json.str "Do not click links", Json.str "Verify source identity"]),
          ("detectedIndicators", Json.arr [Json.str "Parser Error"]) ] := by
  simp [analyzeParseResponse, h, fallbackResult]

/-- Witness for `c5_malformed_json_fallback` on a concrete malformed response. -/
theorem c5_malformed_json_fallback_witness :
    analyzeParseResponse "::" =
      Json.obj
        [ ("status", Json.str "Suspicious"),
          ("riskLevel", Json.num 50),
          ("reasoning", Json.str "Forensic parser anomaly. Manual verification required."),
          ("suggestedActions",
            Json.arr [Json.str "Do not click links", Json.str "Verify source identity"]),
          ("detectedIndicators", Json.arr [Json.str "Parser Error"]) ] :=
  c5_malformed_json_fallback "::" rfl

/-- C6: mode selection.  Lite (also the omitted-mode default) picks the lightweight
variant with neither tools nor thinking config; search keeps the standard variant
and attaches the googleSearch tool; thinking picks the high-capability variant with
the non-zero thinking budget 32768; every mode carries the same fixed system
instruction. -/
theorem c6_mode_selection (history : List ChatMessage) :
    getChatRequest history defaultChatMode = getChatRequest history ChatMode.lite ∧
    ((getChatRequest history ChatMode.lite).model = "gemini-flash-lite-latest" ∧
      (getChatRequest history ChatMode.lite).config.tools = none ∧
      (getChatRequest history ChatMode.lite).config.thinkingConfig = none) ∧
    ((getChatRequest history ChatMode.search).model = "gemini-3-flash-preview" ∧
      (getChatRequest history ChatMode.search).config.tools = some [Tool.googleSearch] ∧
      (getChatRequest history ChatMode.search).config.thinkingConfig = none) ∧
    ((getChatRequest history ChatMode.thinking).model = "gemini-3-pro-preview" ∧
      (getChatRequest history ChatMode.thinking).config.thinkingConfig =
        some { thinkingBudget := 32768 } ∧
      0 < (32768 : Nat)) ∧
    (∀ mode : ChatMode,
      (getChatRequest history mode).config.systemInstruction = chatSystemInstruction) := by
  refine ⟨rfl, ⟨rfl, rfl, rfl⟩, ⟨rfl, rfl, rfl⟩, ⟨rfl, rfl, by decide⟩, ?_⟩
  intro mode
  cases mode <;> rfl

/-- C7: the outbound `contents` are the history mapped one-to-one: same length, and
the i-th entry carries the i-th message's role, with its text as the single part. -/
theorem c7_history_mapped_one_to_one (history : List ChatMessage) (mode : ChatMode) :
    (getChatRequest history mode).contents.length = history.length ∧
    ∀ i : Nat,
      (getChatRequest history mode).contents.get? i =
        (history.get? i).map (fun m => { role := m.role, parts := [{ text := m.text }] }) := by
  constructor
  · simp [getChatRequest]
  · intro i
    simp [getChatRequest]

/-- C8: an absent or empty (falsy) response text yields exactly the placeholder
string, and any non-empty text is returned unchanged; the mapping is total, so an
empty text is never surfaced as an error. -/
theorem c8_text_placeholder (r : ChatResponse) :
    ((r.text = none ∨ r.text = some "") →
      (getChatReply r).text = "Communication link lost.") ∧
    (∀ s : String, s ≠ "" → r.text = some s → (getChatReply r).text = s) := by
  constructor
  · rintro (h | h) <;> simp [getChatReply, h]
  · intro s hs h
    simp [getChatReply, h, hs]

/-- Witness for `c8_text_placeholder`: empty text gives the placeholder, non-empty
text is passed through. -/
theorem c8_text_placeholder_witness :
    (getChatReply { candidates := none, text := some "" }).text =
      "Communication link lost." ∧
    (getChatReply { candidates := none, text := some "ACK" }).text = "ACK" :=
  ⟨(c8_text_placeholder { candidates := none, text := some "" }).1 (Or.inr rfl),
    (c8_text_placeholder { candidates := none, text := some "ACK" }).2 "ACK"
      (by decide) rfl⟩

/-- C9: when the outbound model-service call itself raises a transport fault,
`analyzeThreatContent` propagates it unchanged — it is not caught and not converted
into the fallback result. -/
theorem c9_transport_fault_propagates (text : String) (imageData : Option String)
    (call : AnalyzeRequest → Except TransportError String) (e : TransportError)
    (h : call (analyzeRequest text imageData) = Except.error e) :
    analyzeThreatContent text imageData call = Except.error e := by
  simp [analyzeThreatContent, h]

/-- Witness for `c9_transport_fault_propagates` on a concrete failing call. -/
theorem c9_transport_fault_propagates_witness :
    analyzeThreatContent "hello" none
        (fun _ => Except.error { message := "ECONNRESET" }) =
      Except.error { message := "ECONNRESET" } :=
  c9_transport_fault_propagates "hello" none
    (fun _ => Except.error { message := "ECONNRESET" }) { message := "ECONNRESET" } rfl

/-- C10: a non-empty `imageData` with no comma still attaches an inline image part
whose `data` is `undefined` (`split(',')[1]` has no second segment), and the empty
string is falsy, so it attaches no image part at all, exactly as omitting
`imageData`. -/
theorem c10_commaless_and_empty_imageData (text img : String)
    (hne : img ≠ "") (hnc : ',' ∉ img.toList) :
    buildParts text (some img) =
      [Part.text (analyzePrompt text), Part.inlineData none "image/jpeg"] ∧
    buildParts text (some "") = buildParts text none := by
  refine ⟨?_, rfl⟩
  simp [buildParts, hne, splitSecond_eq_none img hnc]

/-- Witness for `c10_commaless_and_empty_imageData` on a concrete comma-free
payload. -/
theorem c10_commaless_and_empty_imageData_witness :
    buildParts "t" (some "abc") =
      [Part.text (analyzePrompt "t"), Part.inlineData none "image/jpeg"] ∧
    buildParts "t" (some "") = buildParts "t" none :=
  c10_commaless_and_empty_imageData "t" "abc" (by decide) (by decide)

end SecureClick

namespace SecureClick

/-- Filtering on a present `web` and then reading its fields is the same as
filter-mapping through `web` directly; in particular exactly the web-referencing
chunks survive, in their original order. -/
theorem filter_hasWeb_map_eq_filterMap (chunks : List GroundingChunk) :
    (chunks.filter hasWeb).map chunkToSource =
      chunks.filterMap
        (fun ch => ch.web.map (fun w => { title := w.title, uri := w.uri })) := by
  induction chunks with
  | nil => rfl
  | cons ch rest ih =>
    cases hw : ch.web with
    | none => simp [List.filter_cons, List.filterMap_cons, hasWeb, hw, ih]
    | some w => simp [List.filter_cons, List.filterMap_cons, hasWeb, hw, chunkToSource, ih]

/-- C1 as stated fails on the code: when grounding chunks exist but none reference a
web source, `sources` is not absent — it is the present (empty) array produced by
`filter` and `map`. -/
theorem c1_counterexample :
    ([({ web := none } : GroundingChunk)]).all (fun ch => !hasWeb ch) = true ∧
    extractSources
        { candidates :=
            some [{ groundingMetadata := some { groundingChunks := some [{ web := none }] } }],
          text := some "ok" } = some [] ∧
    (extractSources
        { candidates :=
            some [{ groundingMetadata := some { groundingChunks := some [{ web := none }] } }],
          text := some "ok" }).isSome = true :=
  ⟨rfl, rfl, rfl⟩

/-- C1 (amended): `sources` is `undefined` exactly when the optional chain breaks
(no candidates array, no first candidate, no grounding metadata, or no chunk
array); when a chunk array is present, `sources` is the list of `{title, uri}` for
exactly the web-referencing chunks in their original relative order — the
present-but-empty list when none reference the web. -/
theorem c1_sources (r : ChatResponse) :
    (∀ (cands : List Candidate) (c : Candidate) (gm : GroundingMetadata)
        (chunks : List GroundingChunk),
      r.candidates = some cands → cands.get? 0 = some c →
      c.groundingMetadata = some gm → gm.groundingChunks = some chunks →
      extractSources r =
        some (chunks.filterMap
          (fun ch => ch.web.map (fun w => { title := w.title, uri := w.uri })))) ∧
    ((r.candidates = none ∨
      (∃ cands, r.candidates = some cands ∧ cands.get? 0 = none) ∨
      (∃ cands c, r.candidates = some cands ∧ cands.get? 0 = some c ∧
        c.groundingMetadata = none) ∨
      (∃ cands c gm, r.candidates = some cands ∧ cands.get? 0 = some c ∧
        c.groundingMetadata = some gm ∧ gm.groundingChunks = none)) →
      extractSources r = none) := by
  constructor
  · intro cands c gm chunks h1 h2 h3 h4
    simp only [extractSources, h1, h2, h3, h4, filter_hasWeb_map_eq_filterMap]
  · intro h
    rcases h with h1 | ⟨cands, h1, h2⟩ | ⟨cands, c, h1, h2, h3⟩ |
      ⟨cands, c, gm, h1, h2, h3, h4⟩
    · simp only [extractSources, h1]
    · simp only [extractSources, h1, h2]
    · simp only [extractSources, h1, h2, h3]
    · simp only [extractSources, h1, h2, h3, h4]

/-- A grounding chunk that references the web source `{title := t, uri := u}`. -/
def webChunk (t u : String) : GroundingChunk := { web := some { title := t, uri := u } }

/-- A grounding chunk with no web reference. -/
def nonWebChunk : GroundingChunk := { web := none }

/-- A response whose first candidate carries exactly the given grounding chunks. -/
def respWithChunks (chunks : List GroundingChunk) : ChatResponse :=
  { candidates := some [{ groundingMetadata := some { groundingChunks := some chunks } }],
    text := some "ok" }

/-- The mixed chunk list used to witness `c1_sources`. -/
def c1chunks : List GroundingChunk :=
  [webChunk "T1" "U1", nonWebChunk, webChunk "T2" "U2"]

/-- The first candidate of `respWithChunks c1chunks`. -/
def c1cand : Candidate :=
  { groundingMetadata := some { groundingChunks := some c1chunks } }

/-- Witness for `c1_sources`: a mixed chunk list keeps exactly the two web-referencing
chunks, in order; a response without candidates gives an absent `sources`. -/
theorem c1_sources_witness :
    extractSources (respWithChunks c1chunks) =
      some [{ title := "T1", uri := "U1" }, { title := "T2", uri := "U2" }] ∧
    extractSources { candidates := none, text := some "ok" } = none := by
  constructor
  · exact (c1_sources (respWithChunks c1chunks)).1 [c1cand] c1cand
      { groundingChunks := some c1chunks } c1chunks rfl rfl rfl rfl
  · exact (c1_sources { candidates := none, text := some "ok" }).2 (Or.inl rfl)

/-- C2 as stated fails on the code: `{"status":"Safe"}` is well-formed JSON that
violates the declared schema (the four other required fields are missing), yet the
analyzer returns the parsed object unchanged — the TypeScript cast performs no
runtime validation — instead of the fallback result.  The returned object differs
from the fallback: its `riskLevel` is absent, while the fallback's is 50. -/
theorem c2_counterexample :
    jsonParse "\x7b\"status\":\"Safe\"\x7d" =
      some (Json.obj [("status", Json.str "Safe")]) ∧
    matchesSchema (Json.obj [("status", Json.str "Safe")]) = false ∧
    analyzeParseResponse "\x7b\"status\":\"Safe\"\x7d" =
      Json.obj [("status", Json.str "Safe")] ∧
    riskLevelOf (analyzeParseResponse "\x7b\"status\":\"Safe\"\x7d") = none ∧
    riskLevelOf fallbackResult = some 50 :=
  ⟨rfl, rfl, rfl, rfl, rfl⟩

/-- C2 (amended): the fallback result is returned exactly when `JSON.parse` throws —
malformed JSON, including the empty response — and the error never propagates; a
well-formed JSON value is returned unchanged even when it violates the declared
schema. -/
theorem c2_parse_failure_policy (s : String) :
    (jsonParse s = none → analyzeParseResponse s = fallbackResult) ∧
    (∀ v : Json, jsonParse s = some v → analyzeParseResponse s = v) := by
  constructor
  · intro h
    simp [analyzeParseResponse, h]
  · intro v h
    simp [analyzeParseResponse, h]

/-- Witness for `c2_parse_failure_policy`: the empty response falls back; a parsed
(schema-violating) object passes through. -/
theorem c2_parse_failure_policy_witness :
    analyzeParseResponse "" = fallbackResult ∧
    analyzeParseResponse "\x7b\x7d" = Json.obj [] :=
  ⟨(c2_parse_failure_policy "").1 rfl,
    (c2_parse_failure_policy "\x7b\x7d").2 (Json.obj []) rfl⟩

/-- C3 as stated fails on the code: a schema-conforming response carrying
`riskLevel: 150` is returned unchanged, so the result's `riskLevel` lies outside
[0, 100] — the analyzer never clamps it. -/
theorem c3_counterexample :
    riskLevelOf (analyzeParseResponse "\x7b\"status\":\"Safe\",\"riskLevel\":150,\"reasoning\":\"x\",\"suggestedActions\":[],\"detectedIndicators\":[]\x7d") =
      some 150 ∧
    matchesSchema (analyzeParseResponse "\x7b\"status\":\"Safe\",\"riskLevel\":150,\"reasoning\":\"x\",\"suggestedActions\":[],\"detectedIndicators\":[]\x7d") =
      true ∧
    riskOk (analyzeParseResponse "\x7b\"status\":\"Safe\",\"riskLevel\":150,\"reasoning\":\"x\",\"suggestedActions\":[],\"detectedIndicators\":[]\x7d") =
      false :=
  ⟨rfl, rfl, rfl⟩

/-- C3 (amended): for any response text, if every value `JSON.parse` can produce for
it carries an integer `riskLevel` within [0, 100], then the analyzer's result does
too — in particular, on parse failure the fallback's `riskLevel` is 50.  The code
performs no clamping of its own, so the bound is inherited from the response, not
enforced. -/
theorem c3_riskLevel_range (s : String)
    (h : Option.all riskOk (jsonParse s) = true) :
    riskOk (analyzeParseResponse s) = true := by
  unfold analyzeParseResponse
  cases hp : jsonParse s with
  | none => rfl
  | some v =>
    rw [hp] at h
    simpa [Option.all] using h

/-- Witness for `c3_riskLevel_range` on a parse failure (fallback path) and on an
in-range response. -/
theorem c3_riskLevel_range_witness :
    riskOk (analyzeParseResponse "::") = true ∧
    riskOk (analyzeParseResponse "\x7b\"riskLevel\":97\x7d") = true :=
  ⟨c3_riskLevel_range "::" rfl,
    c3_riskLevel_range "\x7b\"riskLevel\":97\x7d" rfl⟩

end SecureClick
